import Mathlib

/-!
Verification of the ampere-openbmc pldm responder and platform-event poller.

The definitions below are a shallow embedding of the two source files:
  * `requester/mctp_endpoint_discovery.hpp` (the `EventHandlerInterface`
    poll-for-platform-event state machine), and
  * `libpldmresponder/platform.cpp` (the `GetPDR` / `PlatformEventMessage`
    command handlers, `sensorEvent`, and the `bios_parser::setupConfig`
    registry setup).
Machine integers are modelled as `Nat` with explicit `% 2^w` where the source
masks; byte vectors are `List Nat`; C++ side effects (handler invocation,
D-Bus signal emission, outgoing requests) are returned as explicit values.
-/

/-! ## PLDM protocol constants (from libpldm base.h / platform.h) -/

def PLDM_SUCCESS : Nat := 0

def PLDM_ERROR : Nat := 1

def PLDM_ERROR_INVALID_DATA : Nat := 2

def PLDM_ERROR_INVALID_LENGTH : Nat := 3

def PLDM_ERROR_NOT_READY : Nat := 4

def PLDM_PLATFORM_INVALID_RECORD_HANDLE : Nat := 0x82

/-- Transfer flag values (libpldm `transfer_resp_flag`). -/
def PLDM_START : Nat := 0x01

def PLDM_MIDDLE : Nat := 0x02

def PLDM_END : Nat := 0x04

def PLDM_START_AND_END : Nat := 0x05

/-- Transfer operation flags for PollForPlatformEventMessage. -/
def PLDM_GET_NEXTPART : Nat := 0

def PLDM_GET_FIRSTPART : Nat := 1

def PLDM_ACKNOWLEDGEMENT_ONLY : Nat := 2

def PLDM_HEARTBEAT_TIMER_ELAPSED_EVENT : Nat := 6

def PLDM_EVENT_NO_LOGGING : Nat := 0

/-- sensorEventClass values (libpldm `sensor_event_class_states`). -/
def PLDM_STATE_SENSOR_STATE : Nat := 1

def PLDM_NUMERIC_SENSOR_STATE : Nat := 2

def PLDM_TID_RESERVED : Nat := 0xFF

def PLDM_GET_PDR_REQ_BYTES : Nat := 13

/-! ## CRC-32 -/

/-- Modelled from the spec: the poller "validates [reassembled payloads] with a
CRC" (CRC-32); the `crc32` routine itself lives in libpldm utils, outside
`src/`.  This is the standard reflected CRC-32 (polynomial `0xEDB88320`,
initial value `0xFFFFFFFF`, final xor `0xFFFFFFFF`). -/
def crc32Poly : Nat := 0xEDB88320

def crc32ShiftStep (crc : Nat) : Nat :=
  if crc % 2 = 1 then (crc / 2) ^^^ crc32Poly else crc / 2

def crc32UpdateByte (crc b : Nat) : Nat :=
  crc32ShiftStep^[8] (crc ^^^ (b % 256))

def crc32 (data : List Nat) : Nat :=
  (data.foldl crc32UpdateByte 0xFFFFFFFF) ^^^ 0xFFFFFFFF

/-! ## Event poller state (EventHandlerInterface) -/

/-- `struct ReqPollInfo`: the request fields for the next
pollForPlatformEventMessage request. -/
structure ReqPollInfo where
  operationFlag : Nat
  dataTransferHandle : Nat
  eventIdToAck : Nat
deriving DecidableEq

/-- `struct RecvPollInfo`: the receive buffer for multi-part reassembly. -/
structure RecvPollInfo where
  eventClass : Nat
  totalSize : Nat
  data : List Nat
deriving DecidableEq

/-- The mutable per-EID state of `EventHandlerInterface`.  Timers are modelled
by booleans (`true` = running/enabled); the correlator's instance id by the
boolean `instanceIdAllocated` (`requester.getInstanceId` sets it,
`requester.markFree` clears it). -/
structure PollState where
  isProcessPolling : Bool
  isPolling : Bool
  isCritical : Bool
  responseReceived : Bool
  reqData : ReqPollInfo
  recvData : RecvPollInfo
  critEventQueue : List Nat
  instanceIdAllocated : Bool
  pollEventReqTimerEnabled : Bool
  pollReqTimeoutTimerRunning : Bool
deriving DecidableEq

/-- The decoded fields of a pollForPlatformEventMessage response
(`decode_poll_for_platform_event_message_resp` output).  `eventData` is the
scratch buffer `tmp`; the part payload is its first `eventDataSize` bytes. -/
structure PollResp where
  completionCode : Nat
  tid : Nat
  eventId : Nat
  nextDataTransferHandle : Nat
  transferFlag : Nat
  eventClass : Nat
  eventDataSize : Nat
  eventData : List Nat
  checksum : Nat
deriving DecidableEq

/-- The part payload: the first `eventDataSize` bytes of the scratch buffer
(`tmp.begin() .. tmp.begin() + retEventDataSize`). -/
def PollResp.payload (r : PollResp) : List Nat :=
  r.eventData.take r.eventDataSize

/-- An invocation of a registered class handler
(`eventHndls.at(class)(tid, class, id, data)`). -/
structure HandlerCall where
  tid : Nat
  eventClass : Nat
  eventId : Nat
  data : List Nat
deriving DecidableEq

/-- An encoded pollForPlatformEventMessage request as handed to
`handler->registerRequest`. -/
structure PollRequest where
  instanceId : Nat
  operationFlag : Nat
  dataTransferHandle : Nat
  eventIdToAck : Nat
deriving DecidableEq

/-- `std::vector::insert(begin()+pos, first, last)`: insert `xs` into `ys` at
position `pos`. -/
def listInsertAt (pos : Nat) (xs ys : List Nat) : List Nat :=
  ys.take pos ++ xs ++ ys.drop pos

namespace EventHandlerInterface

/-- `EventHandlerInterface::reset()`: clear the polling flags, zero the request
data, clear the receive buffer, free the instance id and disable the poll
request timer. -/
def reset (s : PollState) : PollState :=
  { s with
    isProcessPolling := false
    isPolling := false
    responseReceived := false
    reqData := { operationFlag := 0, dataTransferHandle := 0, eventIdToAck := 0 }
    recvData := { eventClass := 0, totalSize := 0, data := [] }
    instanceIdAllocated := false
    pollEventReqTimerEnabled := false }

/-- `EventHandlerInterface::normalEventCb()`. -/
def normalEventCb (s : PollState) : PollState :=
  if s.isProcessPolling || s.isCritical then s
  else
    { s with
      reqData :=
        { operationFlag := PLDM_GET_FIRSTPART, dataTransferHandle := 0, eventIdToAck := 0 }
      pollEventReqTimerEnabled := true }

/-- `EventHandlerInterface::criticalEventCb()`. -/
def criticalEventCb (s : PollState) : PollState :=
  if s.isProcessPolling then s
  else
    match s.critEventQueue with
    | [] => { s with isCritical := false }
    | eventId :: rest =>
      { s with
        isCritical := true
        critEventQueue := rest
        reqData :=
          { operationFlag := PLDM_GET_FIRSTPART, dataTransferHandle := eventId,
            eventIdToAck := eventId }
        pollEventReqTimerEnabled := true }

/-- `EventHandlerInterface::enqueueCriticalEvent(item)`, parameterised by the
compile-time bound `MAX_QUEUE_SIZE`.  Returns the status (`0` ok, `-1` full,
`-2` duplicate) together with the updated queue. -/
def enqueueCriticalEvent (maxQueueSize : Nat) (q : List Nat) (item : Nat) :
    Int × List Nat :=
  if q.length > maxQueueSize then (-1, q)
  else if item ∈ q then (-2, q)
  else (0, q ++ [item])

/-- `EventHandlerInterface::processResponseMsg`.  `registered` is the key set
of `eventHndls`; `dec` is the outcome of
`decode_poll_for_platform_event_message_resp` (`none` = non-success rc).
Returns the new state together with the class-handler invocations performed. -/
def processResponseMsg (registered : List Nat) (s : PollState)
    (dec : Option PollResp) : PollState × List HandlerCall :=
  let s0 : PollState :=
    { s with responseReceived := true, isPolling := false,
             pollReqTimeoutTimerRunning := false }
  match dec with
  | none => (reset s0, [])
  | some r =>
    let retEventId := r.eventId % 65536
    let retNext := r.nextDataTransferHandle % 4294967296
    if retEventId = 0 ∨ retEventId = 65535 then (reset s0, [])
    else if s0.reqData.eventIdToAck ≠ 0 ∧ retEventId ≠ s0.reqData.eventIdToAck then
      (reset s0, [])
    else if r.transferFlag = PLDM_START then
      ({ s0 with
         recvData :=
           { s0.recvData with
             data := r.payload ++ s0.recvData.data
             totalSize := s0.recvData.totalSize + r.eventDataSize }
         reqData :=
           { operationFlag := PLDM_GET_NEXTPART, dataTransferHandle := retNext,
             eventIdToAck := retEventId } }, [])
    else if r.transferFlag = PLDM_MIDDLE then
      ({ s0 with
         recvData :=
           { s0.recvData with
             data := listInsertAt s0.reqData.dataTransferHandle r.payload s0.recvData.data
             totalSize := s0.recvData.totalSize + r.eventDataSize }
         reqData :=
           { operationFlag := PLDM_GET_NEXTPART, dataTransferHandle := retNext,
             eventIdToAck := retEventId } }, [])
    else if r.transferFlag = PLDM_END ∨ r.transferFlag = PLDM_START_AND_END then
      let newData := listInsertAt s0.reqData.dataTransferHandle r.payload s0.recvData.data
      let calls : List HandlerCall :=
        if r.transferFlag = PLDM_END ∧ crc32 newData ≠ r.checksum then []
        else if r.eventClass ∈ registered then
          [{ tid := r.tid, eventClass := r.eventClass, eventId := retEventId,
             data := newData }]
        else []
      ({ s0 with
         recvData :=
           { s0.recvData with
             data := newData
             totalSize := s0.recvData.totalSize + r.eventDataSize }
         reqData :=
           { operationFlag := PLDM_ACKNOWLEDGEMENT_ONLY, dataTransferHandle := 0,
             eventIdToAck := retEventId } }, calls)
    else (s0, [])

/-- `EventHandlerInterface::pollEventReqCb()`.  `newInstanceId` is the id
handed out by `requester.getInstanceId`; `sendOk` is whether
`handler->registerRequest` succeeded.  Returns the new state and the request
sent, if any. -/
def pollEventReqCb (newInstanceId : Nat) (sendOk : Bool) (s : PollState) :
    PollState × Option PollRequest :=
  if s.isPolling then (s, none)
  else if s.reqData.eventIdToAck = 65535 then (s, none)
  else if !sendOk then ({ s with instanceIdAllocated := false }, none)
  else
    ({ s with
       instanceIdAllocated := true
       isProcessPolling := true
       isPolling := true
       responseReceived := false
       pollReqTimeoutTimerRunning := true },
     some { instanceId := newInstanceId, operationFlag := s.reqData.operationFlag,
            dataTransferHandle := s.reqData.dataTransferHandle,
            eventIdToAck := s.reqData.eventIdToAck })

/-- Run `processResponseMsg` over a sequence of decoded responses, collecting
every class-handler invocation in order. -/
def runPoll (registered : List Nat) : PollState → List (Option PollResp) →
    PollState × List HandlerCall
  | s, [] => (s, [])
  | s, dec :: rest =>
    let step := processResponseMsg registered s dec
    let t := runPoll registered step.1 rest
    (t.1, step.2 ++ t.2)

end EventHandlerInterface

/-- Concatenation of the part payloads of a response sequence, in order. -/
def concatPayloads : List PollResp → List Nat
  | [] => []
  | r :: rs => r.payload ++ concatPayloads rs

/-- Sum of the part sizes of a response sequence. -/
def sumSizes : List PollResp → Nat
  | [] => 0
  | r :: rs => r.eventDataSize + sumSizes rs

/-- Well-formedness of the continuation of a multi-part transfer whose event id
is `e`, to be processed when the receive buffer already holds `off` bytes:
zero or more `MIDDLE` parts followed by exactly one `END` part, each carrying
`e`, each with a size within the scratch buffer, and each `MIDDLE` part
returning the cursor that points at the end of the data received so far. -/
def wfSegment (e : Nat) : Nat → List PollResp → Prop
  | _, [] => False
  | _, [r] =>
    r.transferFlag = PLDM_END ∧ r.eventId = e ∧
      r.eventDataSize ≤ r.eventData.length
  | off, r :: r2 :: rs =>
    r.transferFlag = PLDM_MIDDLE ∧ r.eventId = e ∧
      r.eventDataSize ≤ r.eventData.length ∧
      r.nextDataTransferHandle = off + r.eventDataSize ∧
      r.nextDataTransferHandle < 4294967296 ∧
      wfSegment e (off + r.eventDataSize) (r2 :: rs)

/-! ## PLDM responses (libpldmresponder/platform.cpp) -/

/-- An encoded response, modelled structurally (post-`encode_*_resp`): the
PLDM header is represented by the instance id it carries; the remaining
constructor arguments are the encoded body fields in wire order. -/
inductive PldmResponse where
  | ccOnly (instanceId cc : Nat)
  | getPdrResp (instanceId cc nextRecordHandle nextDataTransferHandle
      transferFlag responseCount : Nat) (recordData : List Nat)
  | platformEventResp (instanceId cc status : Nat)
deriving DecidableEq

/-- `CmdHandler::ccOnlyResponse`: a response that carries the request's
instance id in the header and a completion code only — no payload beyond it. -/
def ccOnlyResponse (instanceId cc : Nat) : PldmResponse :=
  PldmResponse.ccOnly instanceId cc

/-! ## GetPDR (Handler::getPDR) -/

/-- One record of the PDR repository, as seen through `pdr_utils::PdrEntry`:
its handle, the next handle in traversal order, and its payload bytes. -/
structure PdrRecord where
  recordHandle : Nat
  nextRecordHandle : Nat
  data : List Nat
deriving DecidableEq

/-- Modelled from the spec: `pldm::responder::pdr::getRecordByHandle` (in
pdr.cpp, outside `src/`) — "`get_by_handle(h) → Option<Entry>`", the lookup of
the repository record whose handle equals `h`. -/
def getRecordByHandle (repo : List PdrRecord) (h : Nat) : Option PdrRecord :=
  repo.find? (fun r => r.recordHandle == h)

/-- The decoded fields of a GetPDR request (`decode_get_pdr_req`). -/
structure GetPdrReqFields where
  recordHandle : Nat
  dataTransferHandle : Nat
  transferOpFlag : Nat
  reqSizeBytes : Nat
  recordChangeNum : Nat
deriving DecidableEq

/-- `Handler::getPDR`.  The three booleans and `checkBMCStateRc` model the
host/OEM readiness preamble (`hostPDRHandler`, `isHostUp()`,
`oemPlatformHandler`, `checkBMCState()`); `repo` is the PDR repository after
the lazy build step; `dec` is the decode outcome (`.error rc` = decode
failure).  The FRU-table build and PDR generation mutate only the repository
and are reflected in the `repo` argument. -/
def getPDR (hostPDRHandlerPresent hostUp oemPlatformHandlerPresent : Bool)
    (checkBMCStateRc : Nat) (repo : List PdrRecord) (instanceId : Nat)
    (payloadLength : Nat) (dec : Except Nat GetPdrReqFields) : PldmResponse :=
  if hostPDRHandlerPresent = true ∧ hostUp = true ∧
      oemPlatformHandlerPresent = true ∧ checkBMCStateRc ≠ PLDM_SUCCESS then
    ccOnlyResponse instanceId PLDM_ERROR_NOT_READY
  else if payloadLength ≠ PLDM_GET_PDR_REQ_BYTES then
    ccOnlyResponse instanceId PLDM_ERROR_INVALID_LENGTH
  else
    match dec with
    | Except.error rc => ccOnlyResponse instanceId rc
    | Except.ok f =>
      match getRecordByHandle repo f.recordHandle with
      | none => ccOnlyResponse instanceId PLDM_PLATFORM_INVALID_RECORD_HANDLE
      | some e =>
        let respSizeBytes :=
          if f.reqSizeBytes ≠ 0 then min e.data.length f.reqSizeBytes else 0
        PldmResponse.getPdrResp instanceId PLDM_SUCCESS e.nextRecordHandle 0
          PLDM_START_AND_END respSizeBytes (e.data.take respSizeBytes)

/-! ## PlatformEventMessage (Handler::platformEventMessage) -/

/-- `eventHandlers.at(eventClass)`: look up the ordered handler list registered
for an event class.  Each handler is represented by the completion code it
returns for the request being dispatched. -/
def lookupEventHandlers (m : List (Nat × List Nat)) (c : Nat) :
    Option (List Nat) :=
  (m.find? (fun p => p.1 == c)).map Prod.snd

/-- The dispatch loop body of `Handler::platformEventMessage`: invoke the
handlers in list order; stop at the first non-success code.  Returns the codes
of the handlers actually invoked, in order, and the final code. -/
def runEventHandlers : List Nat → List Nat × Nat
  | [] => ([], PLDM_SUCCESS)
  | rc :: rest =>
    if rc ≠ PLDM_SUCCESS then ([rc], rc)
    else
      let t := runEventHandlers rest
      (rc :: t.1, t.2)

/-- `Handler::platformEventMessage`.  `dec` is the outcome of
`decode_platform_event_message_req` giving `(formatVersion, tid, eventClass)`.
Returns the encoded response and the codes of the class handlers invoked, in
invocation order.  (The OEM watchdog reset on the heartbeat path is a
side effect on an external collaborator and is not part of the state.) -/
def platformEventMessage (eventHandlers : List (Nat × List Nat))
    (instanceId : Nat) (dec : Except Nat (Nat × Nat × Nat)) :
    PldmResponse × List Nat :=
  match dec with
  | Except.error rc => (ccOnlyResponse instanceId rc, [])
  | Except.ok (_formatVersion, _tid, eventClass) =>
    if eventClass = PLDM_HEARTBEAT_TIMER_ELAPSED_EVENT then
      (PldmResponse.platformEventResp instanceId PLDM_SUCCESS PLDM_EVENT_NO_LOGGING, [])
    else
      match lookupEventHandlers eventHandlers eventClass with
      | none => (ccOnlyResponse instanceId PLDM_ERROR_INVALID_DATA, [])
      | some hrcs =>
        let t := runEventHandlers hrcs
        if t.2 ≠ PLDM_SUCCESS then (ccOnlyResponse instanceId t.2, t.1)
        else
          (PldmResponse.platformEventResp instanceId PLDM_SUCCESS PLDM_EVENT_NO_LOGGING,
           t.1)

/-! ## sensorEvent (Handler::sensorEvent) -/

/-- The host PDR info attached to a sensor entry:
`(entityInfo, compositeSensorStates)`. -/
structure SensorInfo where
  containerId : Nat
  entityType : Nat
  entityInstance : Nat
  compositeSensorStates : List (List Nat)
deriving DecidableEq

/-- Modelled from the spec: `hostPDRHandler->lookupSensorInfo` (HostPDRHandler
lives outside `src/`) — "look up `(tid, sensor_id)` in the host PDR map". -/
def lookupSensorInfo (m : List ((Nat × Nat) × SensorInfo)) (tid sensorId : Nat) :
    Option SensorInfo :=
  (m.find? (fun p => p.1.1 == tid && p.1.2 == sensorId)).map Prod.snd

/-- A D-Bus signal emitted by `Handler::sensorEvent`. -/
inductive EmittedSignal where
  | stateSensor (tid sensorId sensorOffset eventState previousEventState : Nat)
  | numericSensor (tid sensorId eventState preEventState sensorDataSize
      presentReading : Nat)
deriving DecidableEq

/-- `Handler::sensorEvent`.  `hostPDRHandler` is `none` when no host PDR
handler is configured, otherwise the host PDR sensor map;
`handleStateSensorEventRc` is the code returned by
`hostPDRHandler->handleStateSensorEvent`; `decSensor` is the outcome of
`decode_sensor_event_data` giving `(sensorId, eventClass)`; `decState` of
`decode_state_sensor_data` giving
`(sensorOffset, eventState, previousEventState)`; `decNumeric` of
`decode_numeric_sensor_data` giving
`(eventState, preEventState, sensorDataSize, presentReading)`.  Returns the
completion code and the signals emitted. -/
def sensorEvent (hostPDRHandler : Option (List ((Nat × Nat) × SensorInfo)))
    (handleStateSensorEventRc : Nat) (tid : Nat)
    (decSensor : Except Nat (Nat × Nat))
    (decState : Except Nat (Nat × Nat × Nat))
    (decNumeric : Except Nat (Nat × Nat × Nat × Nat)) :
    Nat × List EmittedSignal :=
  match decSensor with
  | Except.error rc => (rc, [])
  | Except.ok (sensorId, eventClass) =>
    if eventClass = PLDM_STATE_SENSOR_STATE then
      match decState with
      | Except.error _ => (PLDM_ERROR, [])
      | Except.ok (sensorOffset, eventState, previousEventState) =>
        let sigs :=
          [EmittedSignal.stateSensor tid sensorId sensorOffset eventState
             previousEventState]
        match hostPDRHandler with
        | none => (PLDM_SUCCESS, sigs)
        | some m =>
          match (lookupSensorInfo m tid sensorId).orElse
              (fun _ => lookupSensorInfo m PLDM_TID_RESERVED sensorId) with
          | none => (PLDM_SUCCESS, sigs)
          | some info =>
            if info.compositeSensorStates.length ≤ sensorOffset then
              (PLDM_ERROR_INVALID_DATA, sigs)
            else if eventState ∈ info.compositeSensorStates.getD sensorOffset [] then
              (handleStateSensorEventRc, sigs)
            else (PLDM_ERROR_INVALID_DATA, sigs)
    else if eventClass = PLDM_NUMERIC_SENSOR_STATE then
      match decNumeric with
      | Except.error _ => (PLDM_ERROR, [])
      | Except.ok (eventState, preEventState, sensorDataSize, presentReading) =>
        (PLDM_SUCCESS,
         [EmittedSignal.numericSensor tid sensorId eventState preEventState
            sensorDataSize presentReading])
    else (PLDM_ERROR_INVALID_DATA, [])

/-! ## BIOS attribute registry (bios_parser) -/

namespace biosParser

/-- `struct DBusMapping` of biosParser. -/
structure DBusMapping where
  objectPath : String
  interface : String
  propertyName : String
deriving DecidableEq

/-- A D-Bus property value for the enumeration dbus value map
(`internal::PropertyValue`).  The json-to-variant casts of `populateMapping`
happen outside the model: property values arrive already converted.  The
`double` alternative is folded into `intVal` (floating point is out of the
embedding). -/
inductive PropVal where
  | boolVal (b : Bool)
  | intVal (i : Int)
  | strVal (s : String)
deriving DecidableEq, BEq

/-- `std::map::emplace`: insert `(k, v)` only when no entry with key `k`
exists. -/
def emplaceA {α β : Type} [BEq α] (m : List (α × β)) (k : α) (v : β) :
    List (α × β) :=
  if (m.find? (fun p => p.1 == k)).isSome then m else m ++ [(k, v)]

/-- The fields a BIOS json entry may carry, across the three attribute kinds
(absent json keys are the `.value(key, default)` defaults of the source). -/
structure BiosDbusEntry where
  objectPath : String
  interface : String
  propertyName : String
  propertyType : String
  propertyValues : List PropVal
deriving DecidableEq

structure BiosJsonEntry where
  attributeName : String
  possibleValues : List String
  defaultValues : List String
  dbus : Option BiosDbusEntry
  stringType : String
  minStringLength : Nat
  maxStringLength : Nat
  defaultStringLength : Nat
  defaultString : String
  lowerBound : Nat
  upperBound : Nat
  scalarIncrement : Nat
  defaultValue : Nat
deriving DecidableEq

/-- The value tuple of `bios_enum::internal::valueMap`. -/
structure EnumValueEntry where
  readOnly : Bool
  possibleValues : List String
  defaultValues : List String
deriving DecidableEq

/-- The value tuple of `bios_string::internal::valueMap`. -/
structure StringValueEntry where
  readOnly : Bool
  strType : Nat
  minStringLength : Nat
  maxStringLength : Nat
  defaultStringLength : Nat
  defaultString : String
deriving DecidableEq

/-- The value tuple of `bios_integer::valueMap`. -/
structure IntegerValueEntry where
  readOnly : Bool
  lowerBound : Nat
  upperBound : Nat
  scalarIncrement : Nat
  defaultValue : Nat
deriving DecidableEq

/-- The global registry state: `BIOSStrings`, `BIOSAttrLookup`, and the
per-kind value maps (`bios_enum::internal::valueMap`,
`bios_enum::internal::dbusValToValMaps`, `bios_string::internal::valueMap`,
`bios_integer::valueMap`). -/
structure BiosState where
  BIOSStrings : List String
  BIOSAttrLookup : List (String × Option DBusMapping)
  enumValueMap : List (String × EnumValueEntry)
  dbusValToValMaps : List (String × List (PropVal × String))
  stringValueMap : List (String × StringValueEntry)
  integerValueMap : List (String × IntegerValueEntry)
deriving DecidableEq

def emptyBiosState : BiosState :=
  { BIOSStrings := [], BIOSAttrLookup := [], enumValueMap := [],
    dbusValToValMaps := [], stringValueMap := [], integerValueMap := [] }

def bIOSEnumJson : String := "enum_attrs.json"

def bIOSStrJson : String := "string_attrs.json"

def bIOSIntegerJson : String := "integer_attrs.json"

def BIOSConfigFiles : List String := [bIOSEnumJson, bIOSStrJson, bIOSIntegerJson]

/-- `bios_enum::internal::populateMapping`: zip the D-Bus property values with
the possible values by ordinal (the source indexes `pv[pos]` without a bounds
check; out of range is undefined behaviour there and yields `""` here). -/
def populateMapping : List PropVal → Nat → List String →
    List (PropVal × String) → List (PropVal × String)
  | [], _, _, m => m
  | v :: rest, pos, pv, m =>
    populateMapping rest (pos + 1) pv (emplaceA m v ((pv.getD pos "")))

/-- `bios_enum::setup`. -/
def biosEnumSetup (e : BiosJsonEntry) (st : BiosState) : BiosState :=
  let st1 :=
    match e.dbus with
    | some d =>
      { st with
        dbusValToValMaps :=
          emplaceA st.dbusValToValMaps e.attributeName
            (populateMapping d.propertyValues 0 e.possibleValues []) }
    | none => st
  { st1 with
    enumValueMap :=
      emplaceA st1.enumValueMap e.attributeName
        { readOnly := e.dbus.isNone, possibleValues := e.possibleValues,
          defaultValues := e.defaultValues } }

/-- `bios_string::strTypeMap` (with the source's duplicate `UTF-16LE` entry
collapsed, as `std::map` ignores the second insertion). -/
def strTypeMap : List (String × Nat) :=
  [("Unknown", 0), ("ASCII", 1), ("Hex", 2), ("UTF-8", 3), ("UTF-16LE", 4),
   ("Vendor Specific", 0xFF)]

/-- Modelled from the spec: `pldm_bios_table_attr_entry_string_info_check`
(libpldm bios_table, outside `src/`) — "Validated via the standard PLDM BIOS
string-info check": the string type is a known encoding and
`min_len ≤ default_len ≤ max_len`. -/
def stringInfoCheck (strType minLen maxLen defLen : Nat) : Bool :=
  (strType ≤ 5 || strType == 0xFF) && minLen ≤ maxLen && minLen ≤ defLen &&
    defLen ≤ maxLen

/-- `bios_string::setup`. -/
def biosStringSetup (e : BiosJsonEntry) (st : BiosState) : BiosState :=
  match strTypeMap.find? (fun p => p.1 == e.stringType) with
  | none => st
  | some p =>
    if stringInfoCheck p.2 e.minStringLength e.maxStringLength
        e.defaultStringLength then
      { st with
        stringValueMap :=
          emplaceA st.stringValueMap e.attributeName
            { readOnly := e.dbus.isNone, strType := p.2,
              minStringLength := e.minStringLength,
              maxStringLength := e.maxStringLength,
              defaultStringLength := e.defaultStringLength,
              defaultString := e.defaultString } }
    else st

/-- Modelled from the spec: `pldm_bios_table_attr_entry_integer_info_check`
(libpldm bios_table, outside `src/`) — "Validated via integer-info check;
`scalar_increment` must divide `(upper - lower)`", with the default inside the
bounds. -/
def integerInfoCheck (lower upper scalarIncrement defaultValue : Nat) : Bool :=
  lower ≤ upper && lower ≤ defaultValue && defaultValue ≤ upper &&
    (upper - lower) % max scalarIncrement 1 == 0

/-- `bios_integer::setup`. -/
def biosIntegerSetup (e : BiosJsonEntry) (st : BiosState) : BiosState :=
  if integerInfoCheck e.lowerBound e.upperBound e.scalarIncrement
      e.defaultValue then
    { st with
      integerValueMap :=
        emplaceA st.integerValueMap e.attributeName
          { readOnly := e.dbus.isNone, lowerBound := e.lowerBound,
            upperBound := e.upperBound, scalarIncrement := e.scalarIncrement,
            defaultValue := e.defaultValue } }
  else st

/-- `setupBIOSStrings` (the platform-level one): push the attribute name, then
run the per-file string handler — registered only for the enum file, where it
pushes every possible value (`bios_enum::setupBIOSStrings`). -/
def setupBIOSStringsF (jsonName : String) (e : BiosJsonEntry)
    (strings : List String) : List String :=
  let strings1 := strings ++ [e.attributeName]
  if jsonName == bIOSEnumJson then strings1 ++ e.possibleValues else strings1

/-- `setupBIOSAttrLookup`. -/
def setupBIOSAttrLookupF (e : BiosJsonEntry)
    (lookup : List (String × Option DBusMapping)) :
    List (String × Option DBusMapping) :=
  let dBusMap : Option DBusMapping :=
    match e.dbus with
    | none => none
    | some d =>
      if d.objectPath ≠ "" ∧ d.interface ≠ "" ∧ d.propertyName ≠ "" then
        some { objectPath := d.objectPath, interface := d.interface,
               propertyName := d.propertyName }
      else none
  emplaceA lookup e.attributeName dBusMap

/-- `setupBIOSType`: dispatch to the per-kind setup through
`BIOSTypeHandlers`. -/
def setupBIOSTypeF (jsonName : String) (e : BiosJsonEntry) (st : BiosState) :
    BiosState :=
  if jsonName == bIOSEnumJson then biosEnumSetup e st
  else if jsonName == bIOSStrJson then biosStringSetup e st
  else if jsonName == bIOSIntegerJson then biosIntegerSetup e st
  else st

/-- The per-entry body of the `setupConfig` loop. -/
def processEntry (jsonName : String) (e : BiosJsonEntry) (st : BiosState) :
    BiosState :=
  let st1 := { st with BIOSStrings := setupBIOSStringsF jsonName e st.BIOSStrings }
  let st2 := { st1 with BIOSAttrLookup := setupBIOSAttrLookupF e st1.BIOSAttrLookup }
  setupBIOSTypeF jsonName e st2

/-- The BIOS config directory: whether it exists and is non-empty, and the
entry lists of the files that `parseBiosJsonFile` parses successfully (a
missing or malformed file is absent). -/
structure BiosDir where
  existsNonEmpty : Bool
  files : List (String × List BiosJsonEntry)
deriving DecidableEq

/-- One iteration of the `setupConfig` file loop (`parseBiosJsonFile` plus the
entry loop; an unparsable file is skipped). -/
def processFile (dir : BiosDir) (st : BiosState) (jsonName : String) :
    BiosState :=
  match dir.files.find? (fun p => p.1 == jsonName) with
  | none => st
  | some p => p.2.foldl (fun acc e => processEntry jsonName e acc) st

/-- `bios_parser::setupConfig`. -/
def setupConfig (dir : BiosDir) (st : BiosState) : Int × BiosState :=
  if st.BIOSStrings ≠ [] ∧ st.BIOSAttrLookup ≠ [] then (0, st)
  else if dir.existsNonEmpty = false then (-1, st)
  else
    let st1 := BIOSConfigFiles.foldl (fun acc j => processFile dir acc j) st
    if st1.BIOSStrings = [] then (-1, st1) else (0, st1)

end biosParser

/-! ## Concrete fixtures used by witnesses -/

/-- The poller state right after `pollEventReqCb` has sent a first-part
request probing with Event ID 0. -/
def pollStateInit : PollState :=
  { isProcessPolling := true, isPolling := true, isCritical := false,
    responseReceived := false,
    reqData := { operationFlag := PLDM_GET_FIRSTPART, dataTransferHandle := 0,
                 eventIdToAck := 0 },
    recvData := { eventClass := 0, totalSize := 0, data := [] },
    critEventQueue := [], instanceIdAllocated := true,
    pollEventReqTimerEnabled := true, pollReqTimeoutTimerRunning := true }

/-- The poller state after a `START` part of two bytes for event `0x1234`
whose returned cursor was 2. -/
def pollStateMid : PollState :=
  { pollStateInit with
    reqData :=
      { operationFlag := PLDM_GET_NEXTPART
        dataTransferHandle := 2
        eventIdToAck := 4660 }
    recvData := { eventClass := 0, totalSize := 2, data := [170, 187] } }

def respStart : PollResp :=
  { completionCode := 0, tid := 7, eventId := 4660, nextDataTransferHandle := 2,
    transferFlag := PLDM_START, eventClass := 5, eventDataSize := 2,
    eventData := [170, 187], checksum := 0 }

def respEnd : PollResp :=
  { completionCode := 0, tid := 7, eventId := 4660, nextDataTransferHandle := 0,
    transferFlag := PLDM_END, eventClass := 5, eventDataSize := 2,
    eventData := [204, 221], checksum := crc32 [170, 187, 204, 221] }

def respEndBad : PollResp :=
  { respEnd with checksum := 0 }

def respSae : PollResp :=
  { completionCode := 0, tid := 7, eventId := 4660, nextDataTransferHandle := 0,
    transferFlag := PLDM_START_AND_END, eventClass := 5, eventDataSize := 3,
    eventData := [1, 2, 3], checksum := 0 }

def respZero : PollResp :=
  { completionCode := 0, tid := 7, eventId := 0, nextDataTransferHandle := 0,
    transferFlag := PLDM_START, eventClass := 5, eventDataSize := 0,
    eventData := [], checksum := 0 }

/-- A BIOS config directory with a single enumeration attribute. -/
def biosDirDemo : biosParser.BiosDir :=
  { existsNonEmpty := true,
    files :=
      [(biosParser.bIOSEnumJson,
        [{ attributeName := "Attr1", possibleValues := ["A", "B"],
           defaultValues := ["A"], dbus := none, stringType := "Unknown",
           minStringLength := 0, maxStringLength := 0,
           defaultStringLength := 0, defaultString := "", lowerBound := 0,
           upperBound := 0, scalarIncrement := 1, defaultValue := 0 }])] }

/-! ## Helper lemmas -/

open EventHandlerInterface

theorem listInsertAt_length_eq (xs ys : List Nat) :
    listInsertAt ys.length xs ys = ys ++ xs := by
  unfold listInsertAt
  rw [List.take_length, List.drop_length, List.append_nil]

theorem payload_length (r : PollResp) (h : r.eventDataSize ≤ r.eventData.length) :
    r.payload.length = r.eventDataSize := by
  simp [PollResp.payload, List.length_take, Nat.min_eq_left h]

/-! ## Claim theorems -/

/-- C2: `enqueueCriticalEvent` returns `Full` (-1) when the queue length
exceeds `MAX_QUEUE_SIZE` — so with exactly `MAX_QUEUE_SIZE` entries present a
further one is still accepted, i.e. up to `MAX_QUEUE_SIZE + 1` entries —
returns `Duplicate` (-2) when the Event ID already sits in the queue, and
otherwise appends the Event ID at the tail and returns `Ok` (0). -/
theorem claim_C2_enqueueCriticalEvent (maxQueueSize : Nat) (q : List Nat)
    (item : Nat) :
    (q.length > maxQueueSize →
      enqueueCriticalEvent maxQueueSize q item = (-1, q)) ∧
    (q.length ≤ maxQueueSize → item ∈ q →
      enqueueCriticalEvent maxQueueSize q item = (-2, q)) ∧
    (q.length ≤ maxQueueSize → item ∉ q →
      enqueueCriticalEvent maxQueueSize q item = (0, q ++ [item])) ∧
    (q.length = maxQueueSize → item ∉ q →
      (enqueueCriticalEvent maxQueueSize q item).2.length = maxQueueSize + 1) := by
  refine ⟨?_, ?_, ?_, ?_⟩
  · intro h
    simp [enqueueCriticalEvent, h]
  · intro h hm
    simp [enqueueCriticalEvent, Nat.not_lt.mpr h, hm]
  · intro h hm
    simp [enqueueCriticalEvent, Nat.not_lt.mpr h, hm]
  · intro h hm
    simp [enqueueCriticalEvent, h, hm]

theorem claim_C2_enqueueCriticalEvent_witness :
    enqueueCriticalEvent 2 [10, 11, 12] 13 = (-1, [10, 11, 12]) ∧
    enqueueCriticalEvent 2 [10, 11] 10 = (-2, [10, 11]) ∧
    enqueueCriticalEvent 2 [10, 11] 12 = (0, [10, 11, 12]) := by
  refine ⟨?_, ?_, ?_⟩
  · exact (claim_C2_enqueueCriticalEvent 2 [10, 11, 12] 13).1 (by decide)
  · exact (claim_C2_enqueueCriticalEvent 2 [10, 11] 10).2.1 (by decide) (by decide)
  · exact (claim_C2_enqueueCriticalEvent 2 [10, 11] 12).2.2.1 (by decide) (by decide)

/-- C5: at a firing of the normal timer callback, no new poll is initiated
(the state is left untouched, in particular the poll request timer is not
restarted) while `isProcessPolling` or `isCritical` holds; at a firing of the
critical timer callback, no new poll is initiated while `isProcessPolling`
holds — a transfer under way runs to completion first — and when no transfer
is under way the critical callback pops the head of the critical queue and
prepares a first-part poll for it. -/
theorem claim_C5_timer_callbacks (s : PollState) :
    (s.isProcessPolling = true ∨ s.isCritical = true → normalEventCb s = s) ∧
    (s.isProcessPolling = true → criticalEventCb s = s) ∧
    (∀ eventId rest, s.isProcessPolling = false →
      s.critEventQueue = eventId :: rest →
      criticalEventCb s =
        { s with
          isCritical := true
          critEventQueue := rest
          reqData :=
            { operationFlag := PLDM_GET_FIRSTPART,
              dataTransferHandle := eventId, eventIdToAck := eventId }
          pollEventReqTimerEnabled := true }) := by
  refine ⟨?_, ?_, ?_⟩
  · intro h
    rcases h with h | h <;> simp [normalEventCb, h]
  · intro h
    simp [criticalEventCb, h]
  · intro eventId rest h hq
    simp [criticalEventCb, h, hq]

theorem claim_C5_timer_callbacks_witness :
    normalEventCb
        { isProcessPolling := true, isPolling := true, isCritical := false,
          responseReceived := false,
          reqData := { operationFlag := 0, dataTransferHandle := 0, eventIdToAck := 5 },
          recvData := { eventClass := 0, totalSize := 2, data := [1, 2] },
          critEventQueue := [9], instanceIdAllocated := true,
          pollEventReqTimerEnabled := true, pollReqTimeoutTimerRunning := true } =
      { isProcessPolling := true, isPolling := true, isCritical := false,
        responseReceived := false,
        reqData := { operationFlag := 0, dataTransferHandle := 0, eventIdToAck := 5 },
        recvData := { eventClass := 0, totalSize := 2, data := [1, 2] },
        critEventQueue := [9], instanceIdAllocated := true,
        pollEventReqTimerEnabled := true, pollReqTimeoutTimerRunning := true } ∧
    criticalEventCb
        { isProcessPolling := true, isPolling := true, isCritical := false,
          responseReceived := false,
          reqData := { operationFlag := 0, dataTransferHandle := 0, eventIdToAck := 5 },
          recvData := { eventClass := 0, totalSize := 2, data := [1, 2] },
          critEventQueue := [9], instanceIdAllocated := true,
          pollEventReqTimerEnabled := true, pollReqTimeoutTimerRunning := true } =
      { isProcessPolling := true, isPolling := true, isCritical := false,
        responseReceived := false,
        reqData := { operationFlag := 0, dataTransferHandle := 0, eventIdToAck := 5 },
        recvData := { eventClass := 0, totalSize := 2, data := [1, 2] },
        critEventQueue := [9], instanceIdAllocated := true,
        pollEventReqTimerEnabled := true, pollReqTimeoutTimerRunning := true } ∧
    criticalEventCb
        { isProcessPolling := false, isPolling := false, isCritical := false,
          responseReceived := false,
          reqData := { operationFlag := 0, dataTransferHandle := 0, eventIdToAck := 0 },
          recvData := { eventClass := 0, totalSize := 0, data := [] },
          critEventQueue := [4660, 7], instanceIdAllocated := false,
          pollEventReqTimerEnabled := false, pollReqTimeoutTimerRunning := false } =
      { isProcessPolling := false, isPolling := false, isCritical := true,
        responseReceived := false,
        reqData := { operationFlag := PLDM_GET_FIRSTPART,
                     dataTransferHandle := 4660, eventIdToAck := 4660 },
        recvData := { eventClass := 0, totalSize := 0, data := [] },
        critEventQueue := [7], instanceIdAllocated := false,
        pollEventReqTimerEnabled := true, pollReqTimeoutTimerRunning := false } := by
  refine ⟨?_, ?_, ?_⟩
  · exact (claim_C5_timer_callbacks _).1 (Or.inl rfl)
  · exact (claim_C5_timer_callbacks _).2.1 rfl
  · exact (claim_C5_timer_callbacks _).2.2 4660 [7] rfl rfl

theorem runEventHandlers_all_success (l : List Nat)
    (h : ∀ x ∈ l, x = PLDM_SUCCESS) :
    runEventHandlers l = (l, PLDM_SUCCESS) := by
  induction l with
  | nil => rfl
  | cons a t ih =>
    have ha : a = PLDM_SUCCESS := h a (by simp)
    have ht := ih (fun x hx => h x (by simp [hx]))
    simp [runEventHandlers, ha, ht]

theorem runEventHandlers_first_fail (pre : List Nat) (bad : Nat)
    (post : List Nat) (hpre : ∀ x ∈ pre, x = PLDM_SUCCESS)
    (hbad : bad ≠ PLDM_SUCCESS) :
    runEventHandlers (pre ++ bad :: post) = (pre ++ [bad], bad) := by
  induction pre with
  | nil => simp [runEventHandlers, hbad]
  | cons a t ih =>
    have ha : a = PLDM_SUCCESS := hpre a (by simp)
    have ht := ih (fun x hx => hpre x (by simp [hx]))
    simp [runEventHandlers, ha, ht]

/-- C6: for a `PlatformEventMessage` whose event class has a registered
handler list, the handlers run sequentially in list order: when every handler
returns success, all of them run and a success response is returned; the first
handler returning a non-success code aborts the chain — exactly the handlers
up to and including it run — and that code is returned as the response
completion code. -/
theorem claim_C6_platformEventMessage (m : List (Nat × List Nat))
    (instanceId formatVersion tid eventClass : Nat) :
    (∀ hrcs, eventClass ≠ PLDM_HEARTBEAT_TIMER_ELAPSED_EVENT →
      lookupEventHandlers m eventClass = some hrcs →
      (∀ x ∈ hrcs, x = PLDM_SUCCESS) →
      platformEventMessage m instanceId (Except.ok (formatVersion, tid, eventClass)) =
        (PldmResponse.platformEventResp instanceId PLDM_SUCCESS PLDM_EVENT_NO_LOGGING,
         hrcs)) ∧
    (∀ pre bad post, eventClass ≠ PLDM_HEARTBEAT_TIMER_ELAPSED_EVENT →
      lookupEventHandlers m eventClass = some (pre ++ bad :: post) →
      (∀ x ∈ pre, x = PLDM_SUCCESS) → bad ≠ PLDM_SUCCESS →
      platformEventMessage m instanceId (Except.ok (formatVersion, tid, eventClass)) =
        (ccOnlyResponse instanceId bad, pre ++ [bad])) := by
  constructor
  · intro hrcs hc hl hall
    simp [platformEventMessage, hc, hl, runEventHandlers_all_success hrcs hall]
  · intro pre bad post hc hl hpre hbad
    simp [platformEventMessage, hc, hl,
          runEventHandlers_first_fail pre bad post hpre hbad, hbad]

theorem claim_C6_platformEventMessage_witness :
    platformEventMessage [(3, [0, 0])] 11 (Except.ok (1, 20, 3)) =
      (PldmResponse.platformEventResp 11 PLDM_SUCCESS PLDM_EVENT_NO_LOGGING,
       [0, 0]) ∧
    platformEventMessage [(2, [0, 7, 9])] 11 (Except.ok (1, 20, 2)) =
      (ccOnlyResponse 11 7, [0, 7]) := by
  constructor
  · exact (claim_C6_platformEventMessage [(3, [0, 0])] 11 1 20 3).1 [0, 0]
      (by decide) (by decide) (by decide)
  · exact (claim_C6_platformEventMessage [(2, [0, 7, 9])] 11 1 20 2).2 [0] 7 [9]
      (by decide) (by decide) (by decide) (by decide)

/-- C7: a GetPDR request whose record handle matches no record in the
repository yields a completion-code-only response with code
`InvalidRecordHandle` (0x82) carrying the request's instance id and nothing
beyond the header and that code. -/
theorem claim_C7_getPDR_invalid_handle (hostPDRHandlerPresent hostUp
      oemPlatformHandlerPresent : Bool) (checkBMCStateRc : Nat)
    (repo : List PdrRecord) (instanceId : Nat) (f : GetPdrReqFields)
    (hready : ¬(hostPDRHandlerPresent = true ∧ hostUp = true ∧
      oemPlatformHandlerPresent = true ∧ checkBMCStateRc ≠ PLDM_SUCCESS))
    (hnone : getRecordByHandle repo f.recordHandle = none) :
    getPDR hostPDRHandlerPresent hostUp oemPlatformHandlerPresent
        checkBMCStateRc repo instanceId PLDM_GET_PDR_REQ_BYTES (Except.ok f) =
      ccOnlyResponse instanceId PLDM_PLATFORM_INVALID_RECORD_HANDLE := by
  simp [getPDR, hready, hnone]

theorem claim_C7_getPDR_invalid_handle_witness :
    getPDR false false false 0
        [{ recordHandle := 1, nextRecordHandle := 2, data := [1, 2, 3] }] 9
        PLDM_GET_PDR_REQ_BYTES
        (Except.ok
          { recordHandle := 65535, dataTransferHandle := 0,
            transferOpFlag := 0, reqSizeBytes := 128, recordChangeNum := 0 }) =
      ccOnlyResponse 9 PLDM_PLATFORM_INVALID_RECORD_HANDLE :=
  claim_C7_getPDR_invalid_handle false false false 0 _ 9 _ (by decide) (by decide)

/-- C9: a GetPDR request with a valid record handle returns the record's bytes
truncated to the minimum of the record size and the requested size, under a
success header with the record's next handle and transfer flag
`START_AND_END`; a requested size of 0 returns those header fields with zero
record bytes. -/
theorem claim_C9_getPDR_truncation (hostPDRHandlerPresent hostUp
      oemPlatformHandlerPresent : Bool) (checkBMCStateRc : Nat)
    (repo : List PdrRecord) (instanceId : Nat) (f : GetPdrReqFields)
    (e : PdrRecord)
    (hready : ¬(hostPDRHandlerPresent = true ∧ hostUp = true ∧
      oemPlatformHandlerPresent = true ∧ checkBMCStateRc ≠ PLDM_SUCCESS))
    (hfound : getRecordByHandle repo f.recordHandle = some e) :
    (f.reqSizeBytes ≠ 0 →
      getPDR hostPDRHandlerPresent hostUp oemPlatformHandlerPresent
          checkBMCStateRc repo instanceId PLDM_GET_PDR_REQ_BYTES (Except.ok f) =
        PldmResponse.getPdrResp instanceId PLDM_SUCCESS e.nextRecordHandle 0
          PLDM_START_AND_END (min e.data.length f.reqSizeBytes)
          (e.data.take (min e.data.length f.reqSizeBytes))) ∧
    (f.reqSizeBytes = 0 →
      getPDR hostPDRHandlerPresent hostUp oemPlatformHandlerPresent
          checkBMCStateRc repo instanceId PLDM_GET_PDR_REQ_BYTES (Except.ok f) =
        PldmResponse.getPdrResp instanceId PLDM_SUCCESS e.nextRecordHandle 0
          PLDM_START_AND_END 0 []) := by
  constructor
  · intro h
    simp [getPDR, hready, hfound, h]
  · intro h
    simp [getPDR, hready, hfound, h]

theorem claim_C9_getPDR_truncation_witness :
    getPDR false false false 0
        [{ recordHandle := 1, nextRecordHandle := 2, data := [5, 6, 7] }] 9
        PLDM_GET_PDR_REQ_BYTES
        (Except.ok
          { recordHandle := 1, dataTransferHandle := 0,
            transferOpFlag := 0, reqSizeBytes := 2, recordChangeNum := 0 }) =
      PldmResponse.getPdrResp 9 PLDM_SUCCESS 2 0 PLDM_START_AND_END 2 [5, 6] ∧
    getPDR false false false 0
        [{ recordHandle := 1, nextRecordHandle := 2, data := [5, 6, 7] }] 9
        PLDM_GET_PDR_REQ_BYTES
        (Except.ok
          { recordHandle := 1, dataTransferHandle := 0,
            transferOpFlag := 0, reqSizeBytes := 0, recordChangeNum := 0 }) =
      PldmResponse.getPdrResp 9 PLDM_SUCCESS 2 0 PLDM_START_AND_END 0 [] := by
  constructor
  · exact (claim_C9_getPDR_truncation false false false 0 _ 9 _
      { recordHandle := 1, nextRecordHandle := 2, data := [5, 6, 7] }
      (by decide) (by decide)).1 (by decide)
  · exact (claim_C9_getPDR_truncation false false false 0 _ 9 _
      { recordHandle := 1, nextRecordHandle := 2, data := [5, 6, 7] }
      (by decide) (by decide)).2 (by decide)

/-- C10: a StateSensorState sensor event whose `(tid, sensorId)` pair has no
entry in the host PDR map, even after the `(TID_RESERVED, sensorId)` fallback
lookup, returns `PLDM_SUCCESS` — not an error — and the state-sensor D-Bus
signal is still emitted. -/
theorem claim_C10_sensorEvent_no_mapping (m : List ((Nat × Nat) × SensorInfo))
    (handleStateSensorEventRc tid sensorId sensorOffset eventState
      previousEventState : Nat)
    (decNumeric : Except Nat (Nat × Nat × Nat × Nat))
    (h1 : lookupSensorInfo m tid sensorId = none)
    (h2 : lookupSensorInfo m PLDM_TID_RESERVED sensorId = none) :
    sensorEvent (some m) handleStateSensorEventRc tid
        (Except.ok (sensorId, PLDM_STATE_SENSOR_STATE))
        (Except.ok (sensorOffset, eventState, previousEventState)) decNumeric =
      (PLDM_SUCCESS,
       [EmittedSignal.stateSensor tid sensorId sensorOffset eventState
          previousEventState]) := by
  simp [sensorEvent, h1, h2, Option.orElse]

theorem claim_C10_sensorEvent_no_mapping_witness :
    sensorEvent
        (some
          [((1, 2),
            { containerId := 0, entityType := 3, entityInstance := 4,
              compositeSensorStates := [[1, 2]] })]) 0 7
        (Except.ok (9, PLDM_STATE_SENSOR_STATE)) (Except.ok (0, 1, 2))
        (Except.error 0) =
      (PLDM_SUCCESS, [EmittedSignal.stateSensor 7 9 0 1 2]) :=
  claim_C10_sensorEvent_no_mapping _ 0 7 9 0 1 2 (Except.error 0) (by decide)
    (by decide)

theorem procResp_reset_cases (registered : List Nat) (s : PollState)
    (dec : Option PollResp)
    (h : dec = none ∨ ∃ r, dec = some r ∧
      (r.eventId % 65536 = 0 ∨ r.eventId % 65536 = 65535 ∨
        (s.reqData.eventIdToAck ≠ 0 ∧
          r.eventId % 65536 ≠ s.reqData.eventIdToAck))) :
    processResponseMsg registered s dec =
      ({ s with
         isProcessPolling := false
         isPolling := false
         responseReceived := false
         reqData := { operationFlag := 0, dataTransferHandle := 0, eventIdToAck := 0 }
         recvData := { eventClass := 0, totalSize := 0, data := [] }
         instanceIdAllocated := false
         pollEventReqTimerEnabled := false
         pollReqTimeoutTimerRunning := false }, []) := by
  rcases h with h | ⟨r, hr, hc⟩
  · subst h
    rfl
  · subst hr
    rcases hc with h0 | hF | ⟨hne, hmm⟩
    · simp [processResponseMsg, reset, h0]
    · simp [processResponseMsg, reset, hF]
    · by_cases hsent : r.eventId % 65536 = 0 ∨ r.eventId % 65536 = 65535
      · rcases hsent with h0 | hF
        · simp [processResponseMsg, reset, h0]
        · simp [processResponseMsg, reset, hF]
      · simp [processResponseMsg, reset, hsent, hne, hmm]

theorem procResp_start_eq (registered : List Nat) (s : PollState) (r : PollResp)
    (hb : r.eventId < 65536) (h0 : r.eventId ≠ 0) (hF : r.eventId ≠ 65535)
    (hack : s.reqData.eventIdToAck = 0 ∨ r.eventId = s.reqData.eventIdToAck)
    (hfl : r.transferFlag = PLDM_START) :
    processResponseMsg registered s (some r) =
      ({ s with
         responseReceived := true
         isPolling := false
         pollReqTimeoutTimerRunning := false
         recvData := { s.recvData with
           data := r.payload ++ s.recvData.data
           totalSize := s.recvData.totalSize + r.eventDataSize }
         reqData :=
           { operationFlag := PLDM_GET_NEXTPART
             dataTransferHandle := r.nextDataTransferHandle % 4294967296
             eventIdToAck := r.eventId } }, []) := by
  have hm : r.eventId % 65536 = r.eventId := Nat.mod_eq_of_lt hb
  have h1 : ¬(r.eventId = 0 ∨ r.eventId = 65535) := not_or.mpr ⟨h0, hF⟩
  have h2 : ¬(s.reqData.eventIdToAck ≠ 0 ∧ r.eventId ≠ s.reqData.eventIdToAck) := by
    rcases hack with h | h
    · exact fun hc => hc.1 h
    · exact fun hc => hc.2 h
  simp only [processResponseMsg, hm]
  rw [if_neg h1, if_neg h2, if_pos hfl]

theorem procResp_middle_eq (registered : List Nat) (s : PollState) (r : PollResp)
    (hb : r.eventId < 65536) (h0 : r.eventId ≠ 0) (hF : r.eventId ≠ 65535)
    (hack : s.reqData.eventIdToAck = 0 ∨ r.eventId = s.reqData.eventIdToAck)
    (hfl : r.transferFlag = PLDM_MIDDLE) :
    processResponseMsg registered s (some r) =
      ({ s with
         responseReceived := true
         isPolling := false
         pollReqTimeoutTimerRunning := false
         recvData := { s.recvData with
           data := listInsertAt s.reqData.dataTransferHandle r.payload s.recvData.data
           totalSize := s.recvData.totalSize + r.eventDataSize }
         reqData :=
           { operationFlag := PLDM_GET_NEXTPART
             dataTransferHandle := r.nextDataTransferHandle % 4294967296
             eventIdToAck := r.eventId } }, []) := by
  have hm : r.eventId % 65536 = r.eventId := Nat.mod_eq_of_lt hb
  have h1 : ¬(r.eventId = 0 ∨ r.eventId = 65535) := not_or.mpr ⟨h0, hF⟩
  have h2 : ¬(s.reqData.eventIdToAck ≠ 0 ∧ r.eventId ≠ s.reqData.eventIdToAck) := by
    rcases hack with h | h
    · exact fun hc => hc.1 h
    · exact fun hc => hc.2 h
  have hns : ¬(r.transferFlag = PLDM_START) := by
    rw [hfl]
    decide
  simp only [processResponseMsg, hm]
  rw [if_neg h1, if_neg h2, if_neg hns, if_pos hfl]

theorem procResp_endlike_eq (registered : List Nat) (s : PollState) (r : PollResp)
    (hb : r.eventId < 65536) (h0 : r.eventId ≠ 0) (hF : r.eventId ≠ 65535)
    (hack : s.reqData.eventIdToAck = 0 ∨ r.eventId = s.reqData.eventIdToAck)
    (hfl : r.transferFlag = PLDM_END ∨ r.transferFlag = PLDM_START_AND_END) :
    processResponseMsg registered s (some r) =
      ({ s with
         responseReceived := true
         isPolling := false
         pollReqTimeoutTimerRunning := false
         recvData := { s.recvData with
           data := listInsertAt s.reqData.dataTransferHandle r.payload s.recvData.data
           totalSize := s.recvData.totalSize + r.eventDataSize }
         reqData :=
           { operationFlag := PLDM_ACKNOWLEDGEMENT_ONLY
             dataTransferHandle := 0
             eventIdToAck := r.eventId } },
       if r.transferFlag = PLDM_END ∧
           crc32 (listInsertAt s.reqData.dataTransferHandle r.payload
             s.recvData.data) ≠ r.checksum then []
       else if r.eventClass ∈ registered then
         [{ tid := r.tid, eventClass := r.eventClass, eventId := r.eventId,
            data := listInsertAt s.reqData.dataTransferHandle r.payload
              s.recvData.data }]
       else []) := by
  have hm : r.eventId % 65536 = r.eventId := Nat.mod_eq_of_lt hb
  have h1 : ¬(r.eventId = 0 ∨ r.eventId = 65535) := not_or.mpr ⟨h0, hF⟩
  have h2 : ¬(s.reqData.eventIdToAck ≠ 0 ∧ r.eventId ≠ s.reqData.eventIdToAck) := by
    rcases hack with h | h
    · exact fun hc => hc.1 h
    · exact fun hc => hc.2 h
  have hns : ¬(r.transferFlag = PLDM_START) := by
    rcases hfl with h | h <;> rw [h] <;> decide
  have hnm : ¬(r.transferFlag = PLDM_MIDDLE) := by
    rcases hfl with h | h <;> rw [h] <;> decide
  simp only [processResponseMsg, hm]
  rw [if_neg h1, if_neg h2, if_neg hns, if_neg hnm, if_pos hfl]

/-- C4: when a poll response fails to decode, or returns event id `0x0000` or
`0xFFFF`, or returns an id that mismatches a non-zero `eventIdToAck`,
`processResponseMsg` calls `reset()` — the polling flags, the request data,
the receive buffer and the instance id are all cleared, the poll request timer
is disabled — and no class handler is invoked, so the reserved sentinels are
never reassembled or dispatched. -/
theorem claim_C4_sentinel_reset (registered : List Nat) (s : PollState)
    (dec : Option PollResp)
    (h : dec = none ∨ ∃ r, dec = some r ∧
      (r.eventId % 65536 = 0 ∨ r.eventId % 65536 = 65535 ∨
        (s.reqData.eventIdToAck ≠ 0 ∧
          r.eventId % 65536 ≠ s.reqData.eventIdToAck))) :
    (processResponseMsg registered s dec).2 = [] ∧
    (processResponseMsg registered s dec).1.isProcessPolling = false ∧
    (processResponseMsg registered s dec).1.isPolling = false ∧
    (processResponseMsg registered s dec).1.responseReceived = false ∧
    (processResponseMsg registered s dec).1.reqData =
      { operationFlag := 0, dataTransferHandle := 0, eventIdToAck := 0 } ∧
    (processResponseMsg registered s dec).1.recvData =
      { eventClass := 0, totalSize := 0, data := [] } ∧
    (processResponseMsg registered s dec).1.instanceIdAllocated = false ∧
    (processResponseMsg registered s dec).1.pollEventReqTimerEnabled = false := by
  rw [procResp_reset_cases registered s dec h]
  exact ⟨rfl, rfl, rfl, rfl, rfl, rfl, rfl, rfl⟩

theorem claim_C4_sentinel_reset_witness :
    (processResponseMsg [5] pollStateMid (some respZero)).2 = [] ∧
    (processResponseMsg [5] pollStateMid (some respZero)).1.recvData =
      { eventClass := 0, totalSize := 0, data := [] } ∧
    (processResponseMsg [5] pollStateMid (some respZero)).1.reqData =
      { operationFlag := 0, dataTransferHandle := 0, eventIdToAck := 0 } ∧
    (processResponseMsg [5] pollStateMid (some respZero)).1.instanceIdAllocated =
      false := by
  have h := claim_C4_sentinel_reset [5] pollStateMid (some respZero)
    (Or.inr ⟨respZero, rfl, Or.inl (by decide)⟩)
  exact ⟨h.1, h.2.2.2.2.2.1, h.2.2.2.2.1, h.2.2.2.2.2.2.1⟩

/-- C3: on a multi-part transfer ending with `END` whose CRC-32 over the
reassembled buffer differs from the trailing checksum field, no class handler
is invoked; the transfer still ends cleanly: the next request is an
`AcknowledgementOnly`, and the reassembled buffer is discarded when the
response that follows the acknowledgement (event id 0) resets the state.  For
a single-part `START_AND_END` response the checksum field is ignored: the
registered handler is invoked whatever the checksum field holds. -/
theorem claim_C3_checksum_mismatch (registered : List Nat) (s : PollState)
    (r : PollResp) (hb : r.eventId < 65536) (h0 : r.eventId ≠ 0)
    (hF : r.eventId ≠ 65535)
    (hack : s.reqData.eventIdToAck = 0 ∨ r.eventId = s.reqData.eventIdToAck) :
    (r.transferFlag = PLDM_END →
      crc32 (listInsertAt s.reqData.dataTransferHandle r.payload
        s.recvData.data) ≠ r.checksum →
      (processResponseMsg registered s (some r)).2 = [] ∧
      (processResponseMsg registered s (some r)).1.reqData =
        { operationFlag := PLDM_ACKNOWLEDGEMENT_ONLY, dataTransferHandle := 0,
          eventIdToAck := r.eventId } ∧
      (∀ newInstanceId,
        (pollEventReqCb newInstanceId true
          (processResponseMsg registered s (some r)).1).2 =
          some { instanceId := newInstanceId,
                 operationFlag := PLDM_ACKNOWLEDGEMENT_ONLY,
                 dataTransferHandle := 0, eventIdToAck := r.eventId }) ∧
      (∀ r2, r2.eventId % 65536 = 0 →
        (processResponseMsg registered
          (processResponseMsg registered s (some r)).1 (some r2)).1.recvData =
          { eventClass := 0, totalSize := 0, data := [] })) ∧
    (r.transferFlag = PLDM_START_AND_END →
      r.eventClass ∈ registered →
      (processResponseMsg registered s (some r)).2 =
        [{ tid := r.tid, eventClass := r.eventClass, eventId := r.eventId,
           data := listInsertAt s.reqData.dataTransferHandle r.payload
             s.recvData.data }]) := by
  constructor
  · intro hfl hcs
    rw [procResp_endlike_eq registered s r hb h0 hF hack (Or.inl hfl)]
    refine ⟨?_, rfl, ?_, ?_⟩
    · simp only []
      rw [if_pos ⟨hfl, hcs⟩]
    · intro newInstanceId
      simp [pollEventReqCb, hF]
    · intro r2 h2
      rw [procResp_reset_cases registered _ (some r2)
        (Or.inr ⟨r2, rfl, Or.inl h2⟩)]
  · intro hfl hreg
    rw [procResp_endlike_eq registered s r hb h0 hF hack (Or.inr hfl)]
    have hne : ¬(r.transferFlag = PLDM_END ∧
        crc32 (listInsertAt s.reqData.dataTransferHandle r.payload
          s.recvData.data) ≠ r.checksum) := by
      rw [hfl]
      exact fun hc => absurd hc.1 (by decide)
    simp only []
    rw [if_neg hne, if_pos hreg]

theorem claim_C3_checksum_mismatch_witness :
    (processResponseMsg [5] pollStateMid (some respEndBad)).2 = [] ∧
    (pollEventReqCb 3 true
      (processResponseMsg [5] pollStateMid (some respEndBad)).1).2 =
      some { instanceId := 3, operationFlag := PLDM_ACKNOWLEDGEMENT_ONLY,
             dataTransferHandle := 0, eventIdToAck := 4660 } ∧
    (processResponseMsg [5]
      (processResponseMsg [5] pollStateMid (some respEndBad)).1
      (some respZero)).1.recvData =
      { eventClass := 0, totalSize := 0, data := [] } ∧
    (processResponseMsg [5] pollStateInit (some respSae)).2 =
      [{ tid := 7, eventClass := 5, eventId := 4660, data := [1, 2, 3] }] := by
  have h := (claim_C3_checksum_mismatch [5] pollStateMid respEndBad (by decide)
    (by decide) (by decide) (by decide)).1 (by decide) (by decide)
  refine ⟨h.1, h.2.2.1 3, h.2.2.2 respZero (by decide), ?_⟩
  exact (claim_C3_checksum_mismatch [5] pollStateInit respSae (by decide)
    (by decide) (by decide) (by decide)).2 (by decide) (by decide)

theorem runPoll_nil (registered : List Nat) (s : PollState) :
    runPoll registered s [] = (s, []) := rfl

theorem runPoll_cons (registered : List Nat) (s : PollState)
    (dec : Option PollResp) (rest : List (Option PollResp)) :
    runPoll registered s (dec :: rest) =
      ((runPoll registered (processResponseMsg registered s dec).1 rest).1,
       (processResponseMsg registered s dec).2 ++
         (runPoll registered (processResponseMsg registered s dec).1 rest).2) :=
  rfl

theorem runPoll_segment (registered : List Nat) (e : Nat) (h0 : e ≠ 0)
    (hF : e ≠ 65535) (hb : e < 65536) :
    ∀ (rs : List PollResp) (s : PollState) (lastR : PollResp),
      wfSegment e s.recvData.data.length rs →
      s.reqData.eventIdToAck = e →
      s.reqData.dataTransferHandle = s.recvData.data.length →
      rs.getLast? = some lastR →
      crc32 (s.recvData.data ++ concatPayloads rs) = lastR.checksum →
      lastR.eventClass ∈ registered →
      (runPoll registered s (rs.map some)).2 =
        [{ tid := lastR.tid, eventClass := lastR.eventClass, eventId := e,
           data := s.recvData.data ++ concatPayloads rs }] ∧
      (runPoll registered s (rs.map some)).1.recvData.data =
        s.recvData.data ++ concatPayloads rs ∧
      (runPoll registered s (rs.map some)).1.recvData.totalSize =
        s.recvData.totalSize + sumSizes rs := by
  intro rs
  induction rs with
  | nil =>
    intro s lastR hwf
    exact absurd hwf (by simp [wfSegment])
  | cons r rest ih =>
    intro s lastR hwf hack hdth hlast hcrc hreg
    cases rest with
    | nil =>
      obtain ⟨hfl, hid, hsz⟩ := hwf
      have hlr : r = lastR := by
        have h2 : (some r : Option PollResp) = some lastR := hlast
        exact Option.some.inj h2
      have hb2 : r.eventId < 65536 := by rw [hid]; exact hb
      have h02 : r.eventId ≠ 0 := by rw [hid]; exact h0
      have hF2 : r.eventId ≠ 65535 := by rw [hid]; exact hF
      have hackr : s.reqData.eventIdToAck = 0 ∨
          r.eventId = s.reqData.eventIdToAck := Or.inr (by rw [hid, hack])
      have hstep := procResp_endlike_eq registered s r hb2 h02 hF2 hackr
        (Or.inl hfl)
      have hnew : listInsertAt s.reqData.dataTransferHandle r.payload
          s.recvData.data = s.recvData.data ++ r.payload := by
        rw [hdth, listInsertAt_length_eq]
      have hconcat : concatPayloads [r] = r.payload := by
        simp [concatPayloads]
      have hcrcr : crc32 (s.recvData.data ++ concatPayloads [r]) =
          r.checksum := by
        have h3 := hcrc
        rw [← hlr] at h3
        exact h3
      have hregr : r.eventClass ∈ registered := by
        have h3 := hreg
        rw [← hlr] at h3
        exact h3
      have hcrc2 : crc32 (s.recvData.data ++ r.payload) = r.checksum := by
        rw [← hconcat]
        exact hcrcr
      have hcond : ¬(r.transferFlag = PLDM_END ∧
          crc32 (listInsertAt s.reqData.dataTransferHandle r.payload
            s.recvData.data) ≠ r.checksum) := by
        rw [hnew]
        exact fun hc => hc.2 hcrc2
      rw [List.map_cons, List.map_nil, runPoll_cons, hstep]
      refine ⟨?_, ?_, ?_⟩
      · simp only [runPoll_nil, List.append_nil]
        rw [if_neg hcond, if_pos hregr]
        rw [hnew, hconcat, ← hlr, hid]
      · simp only [runPoll_nil]
        rw [hconcat]
        show listInsertAt s.reqData.dataTransferHandle r.payload
          s.recvData.data = s.recvData.data ++ r.payload
        exact hnew
      · simp only [runPoll_nil]
        show s.recvData.totalSize + r.eventDataSize = _
        simp [sumSizes]
    | cons r2 rest2 =>
      obtain ⟨hfl, hid, hsz, hnext, hbound, hrest⟩ := hwf
      have hb2 : r.eventId < 65536 := by rw [hid]; exact hb
      have h02 : r.eventId ≠ 0 := by rw [hid]; exact h0
      have hF2 : r.eventId ≠ 65535 := by rw [hid]; exact hF
      have hackr : s.reqData.eventIdToAck = 0 ∨
          r.eventId = s.reqData.eventIdToAck := Or.inr (by rw [hid, hack])
      have hstep := procResp_middle_eq registered s r hb2 h02 hF2 hackr hfl
      have hnew : listInsertAt s.reqData.dataTransferHandle r.payload
          s.recvData.data = s.recvData.data ++ r.payload := by
        rw [hdth, listInsertAt_length_eq]
      have hplen : r.payload.length = r.eventDataSize := payload_length r hsz
      have hlen : (s.recvData.data ++ r.payload).length =
          s.recvData.data.length + r.eventDataSize := by
        rw [List.length_append, hplen]
      have hmod : r.nextDataTransferHandle % 4294967296 =
          r.nextDataTransferHandle := Nat.mod_eq_of_lt hbound
      have hlast2 : (r2 :: rest2).getLast? = some lastR := by
        rw [List.getLast?_cons_cons] at hlast
        exact hlast
      set s1 : PollState :=
        { s with
          responseReceived := true
          isPolling := false
          pollReqTimeoutTimerRunning := false
          recvData := { s.recvData with
            data := listInsertAt s.reqData.dataTransferHandle r.payload s.recvData.data
            totalSize := s.recvData.totalSize + r.eventDataSize }
          reqData :=
            { operationFlag := PLDM_GET_NEXTPART
              dataTransferHandle := r.nextDataTransferHandle % 4294967296
              eventIdToAck := r.eventId } } with hs1
      have hd1 : s1.recvData.data = s.recvData.data ++ r.payload := hnew
      have hwf1 : wfSegment e s1.recvData.data.length (r2 :: rest2) := by
        rw [hd1, hlen]
        exact hrest
      have hack1 : s1.reqData.eventIdToAck = e := hid
      have hdth1 : s1.reqData.dataTransferHandle = s1.recvData.data.length := by
        rw [hd1, hlen]
        show r.nextDataTransferHandle % 4294967296 = _
        rw [hmod, hnext]
      have hcrc1 : crc32 (s1.recvData.data ++ concatPayloads (r2 :: rest2)) =
          lastR.checksum := by
        rw [hd1, List.append_assoc]
        exact hcrc
      have hih := ih s1 lastR hwf1 hack1 hdth1 hlast2 hcrc1 hreg
      rw [List.map_cons, runPoll_cons, hstep]
      refine ⟨?_, ?_, ?_⟩
      · simp only [List.nil_append]
        rw [hih.1, hd1, List.append_assoc]
        rfl
      · rw [hih.2.1, hd1, List.append_assoc]
        rfl
      · rw [hih.2.2]
        show s.recvData.totalSize + r.eventDataSize +
          sumSizes (r2 :: rest2) = _
        rw [Nat.add_assoc]
        rfl

/-- C1: multi-part reassembly in `processResponseMsg`.  (1) A `START` part
arriving on a fresh receive buffer is inserted at offset 0 and `totalSize` is
set to the part size.  (2) A `MIDDLE` or `END` part is inserted at the offset
held in `reqData.dataTransferHandle` — the cursor taken from the previous
response — and `totalSize` accumulates the part length.  (3) Over a whole
well-formed multi-part transfer (cursors advancing past each part), the bytes
handed to the class handler are exactly the concatenation of the part
payloads in cursor order. -/
theorem claim_C1_reassembly :
    (∀ (registered : List Nat) (s : PollState) (r : PollResp),
      r.eventId < 65536 → r.eventId ≠ 0 → r.eventId ≠ 65535 →
      (s.reqData.eventIdToAck = 0 ∨ r.eventId = s.reqData.eventIdToAck) →
      r.transferFlag = PLDM_START →
      s.recvData.data = [] → s.recvData.totalSize = 0 →
      (processResponseMsg registered s (some r)).1.recvData.data = r.payload ∧
      (processResponseMsg registered s (some r)).1.recvData.totalSize =
        r.eventDataSize) ∧
    (∀ (registered : List Nat) (s : PollState) (r : PollResp),
      r.eventId < 65536 → r.eventId ≠ 0 → r.eventId ≠ 65535 →
      (s.reqData.eventIdToAck = 0 ∨ r.eventId = s.reqData.eventIdToAck) →
      (r.transferFlag = PLDM_MIDDLE ∨ r.transferFlag = PLDM_END) →
      (processResponseMsg registered s (some r)).1.recvData.data =
        listInsertAt s.reqData.dataTransferHandle r.payload s.recvData.data ∧
      (processResponseMsg registered s (some r)).1.recvData.totalSize =
        s.recvData.totalSize + r.eventDataSize) ∧
    (∀ (registered : List Nat) (s : PollState) (e : Nat) (first : PollResp)
        (rest : List PollResp) (lastR : PollResp),
      e ≠ 0 → e ≠ 65535 → e < 65536 →
      s.recvData.data = [] → s.recvData.totalSize = 0 →
      (s.reqData.eventIdToAck = 0 ∨ s.reqData.eventIdToAck = e) →
      first.transferFlag = PLDM_START → first.eventId = e →
      first.eventDataSize ≤ first.eventData.length →
      first.nextDataTransferHandle = first.eventDataSize →
      first.nextDataTransferHandle < 4294967296 →
      wfSegment e first.eventDataSize rest →
      rest.getLast? = some lastR →
      crc32 (first.payload ++ concatPayloads rest) = lastR.checksum →
      lastR.eventClass ∈ registered →
      (runPoll registered s ((first :: rest).map some)).2 =
        [{ tid := lastR.tid, eventClass := lastR.eventClass, eventId := e,
           data := first.payload ++ concatPayloads rest }] ∧
      (runPoll registered s ((first :: rest).map some)).1.recvData.data =
        first.payload ++ concatPayloads rest ∧
      (runPoll registered s ((first :: rest).map some)).1.recvData.totalSize =
        first.eventDataSize + sumSizes rest) := by
  refine ⟨?_, ?_, ?_⟩
  · intro registered s r hb h0 hF hack hfl hdata0 htot0
    rw [procResp_start_eq registered s r hb h0 hF hack hfl]
    constructor
    · show r.payload ++ s.recvData.data = r.payload
      rw [hdata0, List.append_nil]
    · show s.recvData.totalSize + r.eventDataSize = r.eventDataSize
      rw [htot0, Nat.zero_add]
  · intro registered s r hb h0 hF hack hfl
    rcases hfl with hfl | hfl
    · rw [procResp_middle_eq registered s r hb h0 hF hack hfl]
      exact ⟨rfl, rfl⟩
    · rw [procResp_endlike_eq registered s r hb h0 hF hack (Or.inl hfl)]
      exact ⟨rfl, rfl⟩
  · intro registered s e first rest lastR h0 hF hb hdata0 htot0 hack0 hflF
      hidF hszF hnextF hboundF hwfR hlastR hcrcR hregR
    have hb2 : first.eventId < 65536 := by rw [hidF]; exact hb
    have h02 : first.eventId ≠ 0 := by rw [hidF]; exact h0
    have hF2 : first.eventId ≠ 65535 := by rw [hidF]; exact hF
    have hack2 : s.reqData.eventIdToAck = 0 ∨
        first.eventId = s.reqData.eventIdToAck := by
      rcases hack0 with h | h
      · exact Or.inl h
      · exact Or.inr (by rw [hidF, h])
    have hstep := procResp_start_eq registered s first hb2 h02 hF2 hack2 hflF
    have hplen : first.payload.length = first.eventDataSize :=
      payload_length first hszF
    have hmod : first.nextDataTransferHandle % 4294967296 =
        first.nextDataTransferHandle := Nat.mod_eq_of_lt hboundF
    set s1 : PollState :=
      { s with
        responseReceived := true
        isPolling := false
        pollReqTimeoutTimerRunning := false
        recvData := { s.recvData with
          data := first.payload ++ s.recvData.data
          totalSize := s.recvData.totalSize + first.eventDataSize }
        reqData :=
          { operationFlag := PLDM_GET_NEXTPART
            dataTransferHandle := first.nextDataTransferHandle % 4294967296
            eventIdToAck := first.eventId } } with hs1
    have hd1 : s1.recvData.data = first.payload := by
      show first.payload ++ s.recvData.data = first.payload
      rw [hdata0, List.append_nil]
    have ht1 : s1.recvData.totalSize = first.eventDataSize := by
      show s.recvData.totalSize + first.eventDataSize = first.eventDataSize
      rw [htot0, Nat.zero_add]
    have hwf1 : wfSegment e s1.recvData.data.length rest := by
      rw [hd1, hplen]
      exact hwfR
    have hack1 : s1.reqData.eventIdToAck = e := hidF
    have hdth1 : s1.reqData.dataTransferHandle = s1.recvData.data.length := by
      rw [hd1, hplen]
      show first.nextDataTransferHandle % 4294967296 = _
      rw [hmod, hnextF]
    have hcrc1 : crc32 (s1.recvData.data ++ concatPayloads rest) =
        lastR.checksum := by
      rw [hd1]
      exact hcrcR
    have hseg := runPoll_segment registered e h0 hF hb rest s1 lastR hwf1
      hack1 hdth1 hlastR hcrc1 hregR
    rw [List.map_cons, runPoll_cons, hstep]
    refine ⟨?_, ?_, ?_⟩
    · simp only [List.nil_append]
      rw [hseg.1, hd1]
    · rw [hseg.2.1, hd1]
    · rw [hseg.2.2, ht1]

theorem claim_C1_reassembly_witness :
    (runPoll [5] pollStateInit ((respStart :: [respEnd]).map some)).2 =
      [{ tid := 7, eventClass := 5, eventId := 4660,
         data := [170, 187, 204, 221] }] ∧
    (runPoll [5] pollStateInit
        ((respStart :: [respEnd]).map some)).1.recvData.data =
      [170, 187, 204, 221] ∧
    (runPoll [5] pollStateInit
        ((respStart :: [respEnd]).map some)).1.recvData.totalSize = 4 := by
  have h := claim_C1_reassembly.2.2 [5] pollStateInit 4660 respStart [respEnd]
    respEnd (by decide) (by decide) (by decide) rfl rfl (Or.inl rfl) rfl rfl
    (by decide) rfl (by decide)
    (by simp only [wfSegment]; exact ⟨rfl, rfl, by decide⟩) rfl (by rfl)
    (by decide)
  exact ⟨h.1, h.2.1, h.2.2⟩

namespace biosParser

theorem emplaceA_ne_nil {α β : Type} [BEq α] (m : List (α × β)) (k : α)
    (v : β) : emplaceA m k v ≠ [] := by
  unfold emplaceA
  split
  · rename_i hfind
    cases m with
    | nil => simp at hfind
    | cons a l => simp
  · simp

theorem biosEnumSetup_lookup (e : BiosJsonEntry) (st : BiosState) :
    (biosEnumSetup e st).BIOSAttrLookup = st.BIOSAttrLookup := by
  unfold biosEnumSetup
  cases e.dbus <;> rfl

theorem biosStringSetup_lookup (e : BiosJsonEntry) (st : BiosState) :
    (biosStringSetup e st).BIOSAttrLookup = st.BIOSAttrLookup := by
  unfold biosStringSetup
  split
  · rfl
  · split <;> rfl

theorem biosIntegerSetup_lookup (e : BiosJsonEntry) (st : BiosState) :
    (biosIntegerSetup e st).BIOSAttrLookup = st.BIOSAttrLookup := by
  unfold biosIntegerSetup
  split <;> rfl

theorem setupBIOSTypeF_lookup (jsonName : String) (e : BiosJsonEntry)
    (st : BiosState) :
    (setupBIOSTypeF jsonName e st).BIOSAttrLookup = st.BIOSAttrLookup := by
  unfold setupBIOSTypeF
  split
  · exact biosEnumSetup_lookup e st
  · split
    · exact biosStringSetup_lookup e st
    · split
      · exact biosIntegerSetup_lookup e st
      · rfl

theorem processEntry_lookup_eq (jsonName : String) (e : BiosJsonEntry)
    (st : BiosState) :
    (processEntry jsonName e st).BIOSAttrLookup =
      setupBIOSAttrLookupF e st.BIOSAttrLookup := by
  unfold processEntry
  rw [setupBIOSTypeF_lookup]

theorem processEntry_lookup_ne_nil (jsonName : String) (e : BiosJsonEntry)
    (st : BiosState) : (processEntry jsonName e st).BIOSAttrLookup ≠ [] := by
  rw [processEntry_lookup_eq]
  unfold setupBIOSAttrLookupF
  exact emplaceA_ne_nil _ _ _

theorem foldl_processEntry_lookup_ne_nil (jsonName : String)
    (l : List BiosJsonEntry) :
    ∀ st : BiosState, st.BIOSAttrLookup ≠ [] →
      ((l.foldl (fun acc e => processEntry jsonName e acc) st)).BIOSAttrLookup ≠
        [] := by
  induction l with
  | nil => intro st h; exact h
  | cons e l ih =>
    intro st _
    exact ih (processEntry jsonName e st)
      (processEntry_lookup_ne_nil jsonName e st)

theorem processFile_preserves (dir : BiosDir) (st : BiosState) (jsonName : String)
    (hq : st.BIOSStrings ≠ [] → st.BIOSAttrLookup ≠ []) :
    (processFile dir st jsonName).BIOSStrings ≠ [] →
      (processFile dir st jsonName).BIOSAttrLookup ≠ [] := by
  unfold processFile
  cases hfind : dir.files.find? (fun p => p.1 == jsonName) with
  | none =>
    dsimp only
    exact hq
  | some p =>
    dsimp only
    cases hp : p.2 with
    | nil =>
      dsimp only [List.foldl]
      intro h
      exact hq h
    | cons e l =>
      dsimp only [List.foldl]
      intro _
      exact foldl_processEntry_lookup_ne_nil jsonName l
        (processEntry jsonName e st)
        (processEntry_lookup_ne_nil jsonName e st)

theorem setupConfig_populated (dir : BiosDir)
    (h : (setupConfig dir emptyBiosState).1 = 0) :
    (setupConfig dir emptyBiosState).2.BIOSStrings ≠ [] ∧
    (setupConfig dir emptyBiosState).2.BIOSAttrLookup ≠ [] := by
  have hguard : ¬(emptyBiosState.BIOSStrings ≠ [] ∧
      emptyBiosState.BIOSAttrLookup ≠ []) := by
    simp [emptyBiosState]
  unfold setupConfig at h ⊢
  rw [if_neg hguard] at h ⊢
  by_cases hex : dir.existsNonEmpty = false
  · rw [if_pos hex] at h
    simp at h
  · rw [if_neg hex] at h ⊢
    have hfold : BIOSConfigFiles.foldl (fun acc j => processFile dir acc j)
        emptyBiosState =
        processFile dir (processFile dir
          (processFile dir emptyBiosState bIOSEnumJson) bIOSStrJson)
          bIOSIntegerJson := rfl
    simp only [hfold] at h ⊢
    by_cases hstr : (processFile dir (processFile dir
        (processFile dir emptyBiosState bIOSEnumJson) bIOSStrJson)
        bIOSIntegerJson).BIOSStrings = []
    · rw [if_pos hstr] at h
      simp at h
    · rw [if_neg hstr] at h ⊢
      have h1 := processFile_preserves dir emptyBiosState bIOSEnumJson
        (fun hc => absurd rfl hc)
      have h2 := processFile_preserves dir _ bIOSStrJson h1
      have h3 := processFile_preserves dir _ bIOSIntegerJson h2
      exact ⟨hstr, h3 hstr⟩

end biosParser

/-- C8: calling `setupConfig` a second time after the registry has been
populated by a successful first call is a no-op: the guard on the populated
`BIOSStrings` / `BIOSAttrLookup` globals returns success (0) immediately and
the registry — strings, attribute lookup and all value maps — is exactly the
first call's result, whatever directory the second call is pointed at. -/
theorem claim_C8_setupConfig_idempotent (dir dir2 : biosParser.BiosDir)
    (h : (biosParser.setupConfig dir biosParser.emptyBiosState).1 = 0) :
    biosParser.setupConfig dir2
        (biosParser.setupConfig dir biosParser.emptyBiosState).2 =
      (0, (biosParser.setupConfig dir biosParser.emptyBiosState).2) := by
  obtain ⟨hs, hl⟩ := biosParser.setupConfig_populated dir h
  unfold biosParser.setupConfig
  rw [if_pos ⟨hs, hl⟩]

theorem claim_C8_setupConfig_idempotent_witness :
    biosParser.setupConfig biosDirDemo
        (biosParser.setupConfig biosDirDemo biosParser.emptyBiosState).2 =
      (0, (biosParser.setupConfig biosDirDemo biosParser.emptyBiosState).2) :=
  claim_C8_setupConfig_idempotent biosDirDemo biosDirDemo (by decide)
